import Mathlib

/-!
Verification of the FARIS analysis-pipeline core against its specification.

The Python source is embedded shallowly: dictionaries with fixed string keys
become total lookup functions with the source's `.get` defaults, floats become
rationals (ℚ), `TypedDict` records become structures, and every LLM call is
replaced by an explicit outcome parameter (parsed payload, parse error, or
exception) so that each node's post-call behaviour is a pure function of that
outcome.  Source locations are cited next to each definition.
-/

/- ===================== Python string primitives ===================== -/

/-- Whitespace for Python `str.strip()` and the regex class `\s` (ASCII). -/
def isPyWs (c : Char) : Bool :=
  c = ' ' || c = '\t' || c = '\n' || c = '\r' || c = '\x0b' || c = '\x0c'

/-- Python `str.strip()` on a character list. -/
def stripL (l : List Char) : List Char :=
  ((l.dropWhile isPyWs).reverse.dropWhile isPyWs).reverse

/-- Python `str.lower()` (ASCII case folding, which covers every pattern and
input used by the pipeline). -/
def lowerL (l : List Char) : List Char :=
  l.map Char.toLower

/-- Does `needle` occur at the head of `hay`? -/
def startsWithL : List Char → List Char → Bool
  | [], _ => true
  | _ :: _, [] => false
  | n :: ns, h :: hs => n = h && startsWithL ns hs

/-- Python substring containment `needle in hay`. -/
def occursInL (needle : List Char) : List Char → Bool
  | [] => needle.isEmpty
  | h :: t => startsWithL needle (h :: t) || occursInL needle t

/- ===================== Python round() on rationals ===================== -/

/-- Python `round` to an integer: nearest, ties to even. -/
def roundHalfEven (q : ℚ) : ℤ :=
  let n : ℤ := Rat.floor q
  if q - n < 1/2 then n
  else if q - n > 1/2 then n + 1
  else if n % 2 = 0 then n else n + 1

/-- Python `round(q, d)`. -/
def pyRound (d : ℕ) (q : ℚ) : ℚ :=
  (roundHalfEven (q * 10 ^ d) : ℚ) / 10 ^ d

/- ===================== Configuration defaults (src/app/config.py) ===================== -/

/-- `Settings.failure_confidence_threshold` default (config.py:113-118). -/
def failure_confidence_threshold : ℚ := 1/2

/-- `settings.failure_weights.get(failure_type, 0.1)` with the default weight
table (config.py:121-126, 161-170; used at risk_scoring.py:61). -/
def failureWeight (t : String) : ℚ :=
  if t = "hallucination" then 35/100
  else if t = "logical_inconsistency" then 25/100
  else if t = "missing_assumptions" then 20/100
  else if t = "overconfidence" then 10/100
  else if t = "scope_violation" then 5/100
  else if t = "underspecification" then 5/100
  else 1/10

/-- `settings.domain_multipliers.get(domain, 1.0)` with the default multiplier
table (config.py:129-133, 173-181; used at risk_scoring.py:41). -/
def domainMultiplier (d : String) : ℚ :=
  if d = "general" then 1
  else if d = "finance" then 3/2
  else if d = "medical" then 2
  else if d = "legal" then 9/5
  else if d = "code" then 13/10
  else 1

/-- `severity_multipliers.get(severity, 0.5)` (risk_scoring.py:44-49, 62). -/
def severityMultiplier (s : String) : ℚ :=
  if s = "low" then 1/4
  else if s = "medium" then 1/2
  else if s = "high" then 3/4
  else if s = "critical" then 1
  else 1/2

/- ===================== Data model (src/app/core/graph/state.py) ===================== -/

/-- One raw finding dict inside a hallucination-detector response; fields are
read with `.get` and a default, hence `Option` (hallucination.py:67-82). -/
structure Finding where
  is_hallucinated : Option Bool
  claim_id : Option String
  reason : Option String
deriving DecidableEq

/-- `FailureSignal` (state.py:19-28).  `findings` keeps the raw parsed finding
records. -/
structure FailureSignal where
  failure_type : String
  detected : Bool
  confidence : ℚ
  severity : String
  evidence : List String
  related_claim_ids : List String
  explanation : String
  findings : List Finding
deriving DecidableEq

/-- `RecommendationData` (state.py:31-38). -/
structure RecommendationData where
  recommendation_id : String
  priority : ℕ
  failure_type : String
  title : String
  description : String
  implementation_hint : Option String
deriving DecidableEq

/-- One entry of `contributing_factors` (risk_scoring.py:68-76). -/
structure Factor where
  failure_type : String
  confidence : ℚ
  severity : String
  type_weight : ℚ
  severity_multiplier : ℚ
  domain_multiplier : ℚ
  contribution : ℚ
deriving DecidableEq

/-- The fields written by `risk_scoring_node` (risk_scoring.py:102-109),
without the free-text explanation and timing bookkeeping. -/
structure RiskResult where
  risk_score : ℚ
  risk_level : String
  domain_multiplier : ℚ
  contributing_factors : List Factor
deriving DecidableEq

/- ===================== Risk scorer (src/app/core/graph/nodes/risk_scoring.py) ===================== -/

/-- One failure's contribution (risk_scoring.py:55-65):
`confidence * type_weight * severity_mult * domain_multiplier`. -/
def contribution (domain : String) (f : FailureSignal) : ℚ :=
  f.confidence * failureWeight f.failure_type * severityMultiplier f.severity
    * domainMultiplier domain

/-- The `contributing_factors` entry appended for a failure
(risk_scoring.py:68-76); its `contribution` field is rounded to 4 places. -/
def mkFactor (domain : String) (f : FailureSignal) : Factor :=
  { failure_type := f.failure_type
    confidence := f.confidence
    severity := f.severity
    type_weight := failureWeight f.failure_type
    severity_multiplier := severityMultiplier f.severity
    domain_multiplier := domainMultiplier domain
    contribution := pyRound 4 (contribution domain f) }

/-- The accumulation loop of risk_scoring.py:52-76: running total and the
factor list, in iteration order. -/
def riskLoop (domain : String) (fs : List FailureSignal) : ℚ × List Factor :=
  fs.foldl (fun acc f => (acc.1 + contribution domain f, acc.2 ++ [mkFactor domain f])) (0, [])

/-- Risk categorisation thresholds (risk_scoring.py:83-90). -/
def riskLevelOf (q : ℚ) : String :=
  if q < 1/4 then "low"
  else if q < 1/2 then "medium"
  else if q < 3/4 then "high"
  else "critical"

/-- `risk_scoring_node` (risk_scoring.py:16-109): soft-caps the summed risk at
1.0, categorises the uncapped-then-capped (but unrounded) score, and returns
the score rounded to 3 decimal places. -/
def risk_scoring_node (fs : List FailureSignal) (domain : String) : RiskResult :=
  let total := (riskLoop domain fs).1
  let score := min total 1
  { risk_score := pyRound 3 score
    risk_level := riskLevelOf score
    domain_multiplier := domainMultiplier domain
    contributing_factors := (riskLoop domain fs).2 }

/-- Presentation order of the four risk levels (spec §3: low < medium < high <
critical); used only to state monotonicity. -/
def levelRank (s : String) : ℕ :=
  if s = "low" then 0
  else if s = "medium" then 1
  else if s = "high" then 2
  else 3

/- ===================== Signal aggregator (src/app/core/graph/nodes/aggregation.py) ===================== -/

/-- The fields written by `aggregation_node` (aggregation.py:77-83), without
timing bookkeeping. -/
structure AggResult where
  failure_signals : List FailureSignal
  detected_failures : List FailureSignal
  failure_detected : Bool
  failure_types : List String
deriving DecidableEq

/-- Collection of the six per-detector state slots in their fixed key order,
skipping absent ones (aggregation.py:37-51). -/
def collectSignals (h l a o s u : Option FailureSignal) : List FailureSignal :=
  ([h, l, a, o, s, u]).filterMap id

/-- Retention test of the filter loop (aggregation.py:57-63):
`detected == true` and `confidence >= threshold`. -/
def retainPred (th : ℚ) (s : FailureSignal) : Bool :=
  s.detected && decide (th ≤ s.confidence)

/-- The `failure_types` accumulation inside the filter loop
(aggregation.py:64-66): first-encounter order, de-duplicated. -/
def dedupTypes (retained : List FailureSignal) : List String :=
  retained.foldl (fun acc s => if s.failure_type ∈ acc then acc else acc ++ [s.failure_type]) []

/-- `aggregation_node` (aggregation.py:16-83), parameterised by the configured
confidence threshold.  Retained signals are sorted by descending confidence
(stable, matching Python `list.sort(key=..., reverse=True)`). -/
def aggregation_node (th : ℚ) (h l a o s u : Option FailureSignal) : AggResult :=
  let signals := collectSignals h l a o s u
  let retained := signals.filter (retainPred th)
  { failure_signals := signals
    detected_failures := List.insertionSort (fun x y => y.confidence ≤ x.confidence) retained
    failure_detected := decide (0 < retained.length)
    failure_types := dedupTypes retained }

/- ===================== Claim decomposer (src/app/core/graph/nodes/decomposition.py) ===================== -/

/-- `ClaimData` (state.py:11-16). -/
structure ClaimData where
  claim_id : String
  claim_text : String
  claim_type : String
  implicit_assumptions : List String
deriving DecidableEq

/-- Sentence splitter `re.split(r'(?<=[.!?])\s+', s)` (decomposition.py:130).
`prev` is the previously consumed character (lookbehind), `splitting` is true
while the current whitespace run of a match is being consumed. -/
def isSentPunct (c : Char) : Bool :=
  c = '.' || c = '!' || c = '?'

/-- Worker for `sentSplit`; accumulates the current fragment reversed. -/
def sentLoop : List Char → Char → Bool → List Char → List (List Char)
  | [], _, _, cur => [cur.reverse]
  | c :: rest, prev, splitting, cur =>
    if splitting && isPyWs c then sentLoop rest c true []
    else if !splitting && isPyWs c && isSentPunct prev then
      cur.reverse :: sentLoop rest c true []
    else sentLoop rest c false (c :: cur)

/-- `re.split(r'(?<=[.!?])\s+', ·)`: split on maximal whitespace runs directly
preceded by `.`, `!` or `?`. -/
def sentSplit (l : List Char) : List (List Char) :=
  sentLoop l 'a' false []

/-- The enumerate-filter loop of `_fallback_claim_extraction`
(decomposition.py:132-141): claim ids come from the index over all sentences,
fragments of stripped length ≤ 10 are skipped. -/
def extractLoop : ℕ → List (List Char) → List ClaimData
  | _, [] => []
  | i, sfrag :: rest =>
    let t := stripL sfrag
    if 10 < t.length then
      { claim_id := "c" ++ toString (i + 1)
        claim_text := String.mk t
        claim_type := "factual"
        implicit_assumptions := [] } :: extractLoop (i + 1) rest
    else extractLoop (i + 1) rest

/-- `_fallback_claim_extraction` (decomposition.py:115-143): sentence split of
the stripped answer, then the filter loop, capped at 20 claims. -/
def fallback_claim_extraction (answer : String) : List ClaimData :=
  (extractLoop 0 (sentSplit (stripL answer.data))).take 20

/-- The decomposition fields produced by `decomposition_node` when the model
output cannot be parsed, or the call raises (decomposition.py:53-64 and
102-112): fallback claims, no assumptions, no reasoning steps. -/
structure DecompResult where
  claims : List ClaimData
  assumptions : List String
  reasoning_steps : List String
deriving DecidableEq

/-- `decomposition_node` outcome on the parse-error / exception path. -/
def decomposition_on_parse_error (answer : String) : DecompResult :=
  { claims := fallback_claim_extraction answer
    assumptions := []
    reasoning_steps := [] }

/- ===================== Precheck (src/app/core/graph/nodes/precheck.py) ===================== -/

/-- Parsed payload of the precheck validation call (precheck.py:121-123);
fields are read with `.get` and a default. -/
structure PrecheckParsed where
  is_valid : Option Bool
  answer_type : Option String
  proceed_with_analysis : Option Bool
  reason : Option String
deriving DecidableEq

/-- Outcome of the precheck LLM call: raised, unparsable, or parsed. -/
inductive PrecheckLlm where
  | exc
  | parseErr
  | parsed (p : PrecheckParsed)
deriving DecidableEq

/-- The fields written by `precheck_node`, without timing bookkeeping. -/
structure PrecheckResult where
  precheck_passed : Bool
  precheck_failure_reason : Option String
  answer_type : String
deriving DecidableEq

/-- Refusal phrase patterns (precheck.py:54-63). -/
def refusal_patterns : List String :=
  ["i cannot", "i can\x27t", "i\x27m not able to", "i am not able to",
   "i don\x27t have access", "i\x27m sorry, but i cannot", "as an ai", "i\x27m unable to"]

/-- Error phrase patterns (precheck.py:77-83). -/
def error_patterns : List String :=
  ["error:", "exception:", "traceback", "failed to", "unable to process"]

/-- Does `pat` occur in the (lowercased) answer? (`pattern in answer_lower`). -/
def containsPat (hay : List Char) (pat : String) : Bool :=
  occursInL pat.data hay

/-- `precheck_node` (precheck.py:15-140): empty-question and empty-answer
rejections, then the short-refusal pass, then the error rejection, then the
LLM validation with fail-open defaults. -/
def precheck_node (question answer : String) (llm : PrecheckLlm) : PrecheckResult :=
  let q := stripL question.data
  let a := stripL answer.data
  if q.isEmpty then
    { precheck_passed := false, precheck_failure_reason := some ("Question is empty"),
      answer_type := "invalid" }
  else if a.isEmpty then
    { precheck_passed := false, precheck_failure_reason := some ("Answer is empty"),
      answer_type := "empty" }
  else
    let al := lowerL a
    let isRefusal := refusal_patterns.any (containsPat al)
    if isRefusal && decide (a.length < 200) then
      { precheck_passed := true, precheck_failure_reason := none, answer_type := "refusal" }
    else
      let isErr := error_patterns.any (containsPat al)
      if isErr && decide (a.length < 500) then
        { precheck_passed := false,
          precheck_failure_reason := some ("Answer appears to be an error message"),
          answer_type := "error" }
      else
        match llm with
        | .exc => { precheck_passed := true, precheck_failure_reason := none,
                    answer_type := "response" }
        | .parseErr => { precheck_passed := true, precheck_failure_reason := none,
                         answer_type := "response" }
        | .parsed p =>
          let ok := p.is_valid.getD true && p.proceed_with_analysis.getD true
          { precheck_passed := ok
            precheck_failure_reason := if ok then none else p.reason
            answer_type := p.answer_type.getD ("response") }

/- ===================== Orchestrator early exit (src/app/core/graph/orchestrator.py) ===================== -/

/-- `should_continue_after_precheck` (orchestrator.py:31-44). -/
def should_continue_after_precheck (r : PrecheckResult) : String :=
  if r.precheck_passed then "decomposition" else "early_exit"

/-- The final fields set by `early_exit_node` (orchestrator.py:47-66).  The
state key `precheck_failure_reason` is always present at this point (set by
`create_initial_state` and overwritten by precheck), so `state.get` returns
its value; a `None` value renders as "None" in the f-string. -/
structure EarlyExitResult where
  failure_detected : Bool
  failure_types : List String
  detected_failures : List FailureSignal
  risk_score : ℚ
  risk_level : String
  explanation : String
  recommendations : List RecommendationData
deriving DecidableEq

/-- `early_exit_node` (orchestrator.py:47-66). -/
def early_exit_node (reason : Option String) : EarlyExitResult :=
  { failure_detected := false
    failure_types := []
    detected_failures := []
    risk_score := 0
    risk_level := "low"
    explanation := "Analysis skipped: " ++ (match reason with | some s => s | none => "None")
    recommendations := [] }

/- ===================== Recommendation generator (src/app/core/graph/nodes/recommendation.py) ===================== -/

/-- One entry of the static `RECOMMENDATIONS_DB` table (recommendation.py:15-130). -/
structure RecEntry where
  title : String
  description : String
  implementation_hint : Option String
  priority : ℕ
deriving DecidableEq

/-- `RECOMMENDATIONS_DB.get(failure_type, [])` (recommendation.py:15-130, 177). -/
def recommendations_db (t : String) : List RecEntry :=
  if t = "hallucination" then
    [{ title := "Implement RAG with verified sources",
       description := "Add retrieval-augmented generation to ground responses in verified documents.",
       implementation_hint := some ("Use vector databases like ChromaDB/Pinecone with curated knowledge bases."),
       priority := 1 },
     { title := "Add source citations requirement",
       description := "Require the LLM to cite sources for factual claims.",
       implementation_hint := some ("Include citation requirements in the system prompt."),
       priority := 2 },
     { title := "Implement fact-checking pipeline",
       description := "Add a post-processing step to verify factual claims.",
       implementation_hint := some ("Use a separate verification model or knowledge graph queries."),
       priority := 2 }]
  else if t = "logical_inconsistency" then
    [{ title := "Add chain-of-thought prompting",
       description := "Require the model to show reasoning steps explicitly.",
       implementation_hint := some ("Use \x27Let\x27s think step by step\x27 or similar CoT triggers."),
       priority := 1 },
     { title := "Implement self-consistency checking",
       description := "Generate multiple responses and check for consistency.",
       implementation_hint := some ("Sample 3-5 responses and look for agreement."),
       priority := 2 },
     { title := "Add logical validation layer",
       description := "Use a separate model to validate logical consistency.",
       implementation_hint := some ("Implement a critic model that checks reasoning chains."),
       priority := 3 }]
  else if t = "missing_assumptions" then
    [{ title := "Require explicit assumption listing",
       description := "Prompt the model to list all assumptions before answering.",
       implementation_hint := some ("Add \x27First, list your assumptions:\x27 to the prompt structure."),
       priority := 1 },
     { title := "Implement clarification requests",
       description := "Allow the model to ask clarifying questions when information is missing.",
       implementation_hint := some ("Add logic to detect and handle clarification requests."),
       priority := 2 },
     { title := "Provide comprehensive context",
       description := "Ensure all necessary context is included in the prompt.",
       implementation_hint := some ("Create context templates that capture required information."),
       priority := 2 }]
  else if t = "overconfidence" then
    [{ title := "Request confidence qualifiers",
       description := "Ask the model to express uncertainty when appropriate.",
       implementation_hint := some ("Add \x27Express your confidence level\x27 to prompts."),
       priority := 1 },
     { title := "Implement calibration training",
       description := "Fine-tune or prompt-engineer for better calibrated confidence.",
       implementation_hint := some ("Use examples that demonstrate appropriate hedging."),
       priority := 2 },
     { title := "Post-process absolute statements",
       description := "Add filters to catch and flag absolute language.",
       implementation_hint := some ("Use regex or NLP to detect \x27always\x27, \x27never\x27, etc."),
       priority := 3 }]
  else if t = "scope_violation" then
    [{ title := "Add scope constraints to prompts",
       description := "Explicitly define the scope of acceptable responses.",
       implementation_hint := some ("Include \x27Only answer the specific question asked\x27 in system prompt."),
       priority := 1 },
     { title := "Implement response filtering",
       description := "Filter out tangential information from responses.",
       implementation_hint := some ("Use a summarization step focused on the original question."),
       priority := 2 }]
  else if t = "underspecification" then
    [{ title := "Implement ambiguity detection",
       description := "Detect ambiguous queries before processing.",
       implementation_hint := some ("Use a classifier to identify underspecified questions."),
       priority := 1 },
     { title := "Add clarification workflow",
       description := "Implement a multi-turn clarification process.",
       implementation_hint := some ("Create a dialogue system for gathering missing information."),
       priority := 2 },
     { title := "Provide default assumptions",
       description := "Define and communicate standard assumptions when info is missing.",
       implementation_hint := some ("Create domain-specific default assumption sets."),
       priority := 3 }]
  else []

/-- `severity_order.get(severity, 2)` (recommendation.py:161-165). -/
def severity_rank (s : String) : ℕ :=
  if s = "critical" then 0
  else if s = "high" then 1
  else if s = "medium" then 2
  else if s = "low" then 3
  else 2

/-- Attachment of sequential ids `r{counter}` to a run of table entries for one
failure type (recommendation.py:180-189). -/
def attachIds : ℕ → String → List RecEntry → List RecommendationData
  | _, _, [] => []
  | ctr, t, e :: rest =>
    { recommendation_id := "r" ++ toString ctr
      priority := e.priority
      failure_type := t
      title := e.title
      description := e.description
      implementation_hint := e.implementation_hint } :: attachIds (ctr + 1) t rest

/-- The static-recommendation loop (recommendation.py:167-189): walk the
severity-sorted failures, skip already-seen types, take the top 2 table
entries per type, with a running id counter. -/
def buildStatic : List FailureSignal → List String → ℕ → List RecommendationData
  | [], _, _ => []
  | f :: rest, seen, ctr =>
    if f.failure_type ∈ seen then buildStatic rest seen ctr
    else
      let entries := (recommendations_db f.failure_type).take 2
      attachIds ctr f.failure_type entries
        ++ buildStatic rest (f.failure_type :: seen) (ctr + entries.length)

/-- A raw domain-specific recommendation dict from the model
(recommendation.py:252-260); fields read with `.get` and a default. -/
structure RawRec where
  recommendation_id : Option String
  priority : Option ℕ
  failure_type : Option String
  title : Option String
  description : Option String
  implementation_hint : Option String
deriving DecidableEq

/-- Outcome of the domain-recommendation LLM call. -/
inductive DomainLlm where
  | exc
  | parseErr
  | parsed (recs : List RawRec)
deriving DecidableEq

/-- `_generate_domain_recommendations` result as seen by the caller
(recommendation.py:195-202, 213-262): an exception is swallowed (`except
Exception: pass`), a parse error yields `[]`, otherwise the first 3 raw
records are mapped with defaults. -/
def domainRecsOf (llm : DomainLlm) : List RecommendationData :=
  match llm with
  | .exc => []
  | .parseErr => []
  | .parsed recs =>
    (recs.take 3).map (fun r =>
      { recommendation_id := r.recommendation_id.getD ("rd1")
        priority := r.priority.getD 3
        failure_type := r.failure_type.getD ("general")
        title := r.title.getD ("Domain-specific recommendation")
        description := r.description.getD ("")
        implementation_hint := r.implementation_hint })

/-- Severity-rank sort of the detected failures (recommendation.py:162-165),
stable like Python `sorted`. -/
def sortBySeverity (detected : List FailureSignal) : List FailureSignal :=
  List.insertionSort (fun x y => severity_rank x.severity ≤ severity_rank y.severity) detected

/-- Priority sort of the static recommendations (recommendation.py:192),
applied BEFORE the domain-specific entries are appended. -/
def sortByPriority (recs : List RecommendationData) : List RecommendationData :=
  List.insertionSort (fun x y => x.priority ≤ y.priority) recs

/-- `recommendation_node` (recommendation.py:133-210): empty input short
circuit; severity sort; dedup + top-2 static entries; priority sort; optional
domain-specific extension appended after the sort; cap at 10. -/
def recommendation_node (detected : List FailureSignal) (domain : String) (llm : DomainLlm) :
    List RecommendationData :=
  if detected.isEmpty then []
  else
    let staticRecs := buildStatic (sortBySeverity detected) [] 1
    let sortedStatic := sortByPriority staticRecs
    let withDomain := if domain ≠ "general" then sortedStatic ++ domainRecsOf llm else sortedStatic
    withDomain.take 10

/- ===================== Structured model client retry (src/app/core/llm/client.py) ===================== -/

/-- What the backend call inside `generate`'s try-block does on one attempt
(client.py:165-180): succeed, time out, fail to connect, return a bad HTTP
status, or fail some other way. -/
inductive BackendOutcome where
  | success (text : String)
  | rawTimeout
  | rawConnect
  | rawStatus
  | rawOther
deriving DecidableEq

/-- The exception classes that can cross `generate`'s boundaries.  The httpx
classes and the Ollama* classes are distinct hierarchies: `OllamaTimeoutError`
and `OllamaConnectionError` extend `OllamaError` extends `Exception`
(client.py:25-37), not the httpx classes. -/
inductive PyExc where
  | httpxTimeout
  | httpxConnect
  | ollamaTimeout
  | ollamaConnection
  | ollamaGeneric
deriving DecidableEq

/-- The body of `generate` (client.py:165-180): every httpx failure is caught
and re-raised as the corresponding Ollama* exception before it can leave the
function. -/
def generate_body (backend : ℕ → BackendOutcome) (attempt : ℕ) : Except PyExc String :=
  match backend attempt with
  | .success t => .ok t
  | .rawTimeout => .error .ollamaTimeout
  | .rawConnect => .error .ollamaConnection
  | .rawStatus => .error .ollamaGeneric
  | .rawOther => .error .ollamaGeneric

/-- tenacity's `retry_if_exception_type((httpx.TimeoutException,
httpx.ConnectError)))` (client.py:115-119): an isinstance test against the two
httpx classes. -/
def tenacity_should_retry (e : PyExc) : Bool :=
  match e with
  | .httpxTimeout => true
  | .httpxConnect => true
  | _ => false

/-- tenacity's attempt loop with `stop_after_attempt`: run the body; retry
while the raised exception matches the predicate and attempts remain.  Returns
the final outcome and the number of attempts actually made. -/
def tenacityLoop (body : ℕ → Except PyExc String) : ℕ → ℕ → Except PyExc String × ℕ
  | attempt, 0 => (body attempt, 1)
  | attempt, 1 => (body attempt, 1)
  | attempt, n + 2 =>
    match body attempt with
    | .ok t => (.ok t, 1)
    | .error e =>
      if tenacity_should_retry e then
        let r := tenacityLoop body (attempt + 1) (n + 1)
        (r.1, r.2 + 1)
      else (.error e, 1)

/-- `generate` as decorated (client.py:115-180): the tenacity loop with
`stop_after_attempt(3)` around the converting body. -/
def generate (backend : ℕ → BackendOutcome) : Except PyExc String × ℕ :=
  tenacityLoop (generate_body backend) 1 3

/- ===================== JSON parsing (Python json.loads, as used by generate_structured) ===================== -/

/-- JSON values as produced by `json.loads` (numbers idealised as rationals;
`NaN`/`Infinity` kept as the Python extension allows them). -/
inductive Json where
  | null
  | bool (b : Bool)
  | num (q : ℚ)
  | str (s : List Char)
  | nan
  | inf (pos : Bool)
  | arr (elems : List Json)
  | obj (members : List ((List Char) × Json))

/-- JSON whitespace accepted by `json.loads` between tokens. -/
def isJsonWs (c : Char) : Bool :=
  c = ' ' || c = '\t' || c = '\n' || c = '\r'

/-- Skip JSON whitespace. -/
def skipJsonWs (l : List Char) : List Char :=
  l.dropWhile isJsonWs

/-- Take a maximal digit run and the remainder. -/
def digitsTake (l : List Char) : List Char × List Char :=
  (l.takeWhile Char.isDigit, l.dropWhile Char.isDigit)

/-- Decimal digit run to a natural number. -/
def digitsToNat (ds : List Char) : ℕ :=
  ds.foldl (fun a c => a * 10 + (c.toNat - 48)) 0

/-- Assemble a JSON number from sign, integer digits, fraction digits and a
signed decimal exponent. -/
def numValue (neg : Bool) (ip fd : List Char) (eneg : Bool) (e : ℕ) : ℚ :=
  let base : ℚ := (digitsToNat ip : ℚ) + (digitsToNat fd : ℚ) / 10 ^ fd.length
  let scaled := if eneg then base / 10 ^ e else base * 10 ^ e
  if neg then -scaled else scaled

/-- Parse the optional exponent part and finish the number. -/
def parseExpPart (neg : Bool) (ip fd : List Char) (r : List Char) : Option (ℚ × List Char) :=
  match r with
  | e :: rest =>
    if e = 'e' || e = 'E' then
      match rest with
      | '+' :: rr =>
        let p := digitsTake rr
        if p.1.isEmpty then none else some (numValue neg ip fd false (digitsToNat p.1), p.2)
      | '-' :: rr =>
        let p := digitsTake rr
        if p.1.isEmpty then none else some (numValue neg ip fd true (digitsToNat p.1), p.2)
      | rr =>
        let p := digitsTake rr
        if p.1.isEmpty then none else some (numValue neg ip fd false (digitsToNat p.1), p.2)
    else some (numValue neg ip fd false 0, r)
  | [] => some (numValue neg ip fd false 0, [])

/-- Parse the fraction-and-exponent tail after the integer digits. -/
def parseFracPart (neg : Bool) (ip : List Char) (r : List Char) : Option (ℚ × List Char) :=
  match r with
  | '.' :: rest =>
    let p := digitsTake rest
    if p.1.isEmpty then none else parseExpPart neg ip p.1 p.2
  | _ => parseExpPart neg ip [] r

/-- Strict JSON number grammar (no leading zeros, mandatory digits around the
point), evaluated into ℚ. -/
def parseNumber (l : List Char) : Option (ℚ × List Char) :=
  match l with
  | '-' :: rest =>
    match rest with
    | c :: _ =>
      if c.isDigit then
        let p := digitsTake rest
        if 1 < p.1.length && p.1.headD '0' = '0' then none
        else parseFracPart true p.1 p.2
      else none
    | [] => none
  | c :: _ =>
    if c.isDigit then
      let p := digitsTake l
      if 1 < p.1.length && p.1.headD '0' = '0' then none
      else parseFracPart false p.1 p.2
    else none
  | [] => none

/-- Value of a hexadecimal digit, if any. -/
def hexVal (c : Char) : Option ℕ :=
  if c.isDigit then some (c.toNat - 48)
  else if 'a' ≤ c && c ≤ 'f' then some (c.toNat - 87)
  else if 'A' ≤ c && c ≤ 'F' then some (c.toNat - 55)
  else none

/-- String body parser (after the opening quote): strict mode, standard
escapes, `\uXXXX` for scalar values.  Returns the content and the remainder
after the closing quote. -/
def parseStr : ℕ → List Char → Option (List Char × List Char)
  | 0, _ => none
  | _, [] => none
  | fuel + 1, c :: rest =>
    if c = '"' then some ([], rest)
    else if c = '\\' then
      match rest with
      | [] => none
      | e :: rest2 =>
        if e = 'u' then
          match rest2 with
          | a :: b :: c2 :: d :: rest3 =>
            match hexVal a, hexVal b, hexVal c2, hexVal d with
            | some ha, some hb, some hc, some hd =>
              (parseStr fuel rest3).map
                (fun p => (Char.ofNat (((ha * 16 + hb) * 16 + hc) * 16 + hd) :: p.1, p.2))
            | _, _, _, _ => none
          | _ => none
        else
          let esc : Option Char :=
            if e = '"' then some '"'
            else if e = '\\' then some '\\'
            else if e = '/' then some '/'
            else if e = 'b' then some '\x08'
            else if e = 'f' then some '\x0c'
            else if e = 'n' then some '\n'
            else if e = 'r' then some '\r'
            else if e = 't' then some '\t'
            else none
          match esc with
          | some ch => (parseStr fuel rest2).map (fun p => (ch :: p.1, p.2))
          | none => none
    else if c.toNat < 32 then none
    else (parseStr fuel rest).map (fun p => (c :: p.1, p.2))

mutual

/-- Recursive-descent JSON value parser (fuelled). -/
def parseVal : ℕ → List Char → Option (Json × List Char)
  | 0, _ => none
  | fuel + 1, l =>
    match skipJsonWs l with
    | [] => none
    | c :: rest =>
      if c = 'n' then
        if startsWithL ("ull").data rest then some (.null, rest.drop 3) else none
      else if c = 't' then
        if startsWithL ("rue").data rest then some (.bool true, rest.drop 3) else none
      else if c = 'f' then
        if startsWithL ("alse").data rest then some (.bool false, rest.drop 4) else none
      else if c = 'N' then
        if startsWithL ("aN").data rest then some (.nan, rest.drop 2) else none
      else if c = 'I' then
        if startsWithL ("nfinity").data rest then some (.inf true, rest.drop 7) else none
      else if c = '-' then
        if startsWithL ("Infinity").data rest then some (.inf false, rest.drop 8)
        else (parseNumber (c :: rest)).map (fun p => (.num p.1, p.2))
      else if c = '"' then
        (parseStr (fuel + 1) rest).map (fun p => (.str p.1, p.2))
      else if c = '[' then
        match skipJsonWs rest with
        | ']' :: r2 => some (.arr [], r2)
        | r1 => (parseItems fuel r1).map (fun p => (.arr p.1, p.2))
      else if c = '\x7b' then
        match skipJsonWs rest with
        | '\x7d' :: r2 => some (.obj [], r2)
        | r1 => (parseMembers fuel r1).map (fun p => (.obj p.1, p.2))
      else (parseNumber (c :: rest)).map (fun p => (.num p.1, p.2))
termination_by structural fuel => fuel

/-- Array items after the opening bracket (at least one). -/
def parseItems : ℕ → List Char → Option (List Json × List Char)
  | 0, _ => none
  | fuel + 1, l =>
    match parseVal fuel l with
    | none => none
    | some (v, r) =>
      match skipJsonWs r with
      | ',' :: r2 => (parseItems fuel r2).map (fun p => (v :: p.1, p.2))
      | ']' :: r2 => some ([v], r2)
      | _ => none
termination_by structural fuel => fuel

/-- Object members after the opening brace (at least one).  Note `json.loads`
keeps the last value for duplicate keys; the inputs analysed here have no
duplicate keys, so the member list represents the dict faithfully. -/
def parseMembers : ℕ → List Char → Option (List ((List Char) × Json) × List Char)
  | 0, _ => none
  | fuel + 1, l =>
    match skipJsonWs l with
    | '"' :: rest =>
      match parseStr (fuel + 1) rest with
      | none => none
      | some (k, r) =>
        match skipJsonWs r with
        | ':' :: r2 =>
          match parseVal fuel r2 with
          | none => none
          | some (v, r3) =>
            match skipJsonWs r3 with
            | ',' :: r4 => (parseMembers fuel r4).map (fun p => ((k, v) :: p.1, p.2))
            | '\x7d' :: r4 => some ([(k, v)], r4)
            | _ => none
        | _ => none
    | _ => none
termination_by structural fuel => fuel

end

/-- `json.loads` on a character list: one value, then only trailing
whitespace. -/
def jsonLoadsL (l : List Char) : Option Json :=
  match parseVal (2 * l.length + 8) l with
  | some (v, rest) => if (skipJsonWs rest).isEmpty then some v else none
  | none => none

/- ===================== Layered structured-output parse (client.py:215-240) ===================== -/

/-- Remainder after the first "```" occurrence, if any. -/
def findTriple : List Char → Option (List Char)
  | [] => none
  | c :: rest =>
    if startsWithL (['\x60', '\x60', '\x60']) (c :: rest) then some ((c :: rest).drop 3)
    else findTriple rest

/-- Lazy search for the closing fence: the shortest prefix (the regex group
`(.*?)`) such that an optional newline and "```" follow. -/
def fenceContent : List Char → Option (List Char)
  | [] => none
  | c :: rest =>
    if startsWithL (['\x60', '\x60', '\x60']) (c :: rest) then some []
    else if c = '\n' && startsWithL (['\x60', '\x60', '\x60']) rest then some []
    else (fenceContent rest).map (fun g => c :: g)

/-- `re.search(r"```(?:json)?\s*\n?(.*?)\n?```", response, re.DOTALL)`
(client.py:220-224): first fence marker, optional `json` tag, greedy
whitespace, then the lazy group up to the closing fence. -/
def fenceExtract (l : List Char) : Option (List Char) :=
  match findTriple l with
  | none => none
  | some rest =>
    let rest1 := if startsWithL ("json").data rest then rest.drop 4 else rest
    fenceContent (rest1.dropWhile isPyWs)

/-- `re.search(r"\{.*\}", response, re.DOTALL)` (client.py:232): with a greedy
`.*` this matches from the FIRST `\x7b` to the LAST `\x7d`, when that span is
non-degenerate. -/
def greedySpan (l : List Char) : Option (List Char) :=
  let t := l.dropWhile (fun c => c ≠ '\x7b')
  let t2 := (t.reverse.dropWhile (fun c => c ≠ '\x7d')).reverse
  if 2 ≤ t2.length then some t2 else none

/-- The last-resort sentinel dict (client.py:240):
`{"_raw_response": response, "_parse_error": True}`. -/
def sentinelObj (response : List Char) : Json :=
  .obj [(("_raw_response").data, .str response), (("_parse_error").data, .bool true)]

/-- The parse stage of `generate_structured` (client.py:215-240): direct
parse, then fenced block, then greedy brace span, then the sentinel dict. -/
def generate_structured_parse (response : String) : Json :=
  match jsonLoadsL response.data with
  | some v => v
  | none =>
    match (fenceExtract response.data).bind jsonLoadsL with
    | some v => v
    | none =>
      match (greedySpan response.data).bind jsonLoadsL with
      | some v => v
      | none => sentinelObj response.data

/-- Worker for `firstBalancedSpan`: naive brace counting from the first
opening brace, per the SPEC's words "the first balanced \x7b...\x7d span". -/
def balanceLoop : List Char → ℕ → List Char → Option (List Char)
  | [], _, _ => none
  | c :: rest, depth, acc =>
    if c = '\x7b' then balanceLoop rest (depth + 1) (c :: acc)
    else if c = '\x7d' then
      if depth = 1 then some ((c :: acc).reverse)
      else balanceLoop rest (depth - 1) (c :: acc)
    else balanceLoop rest depth (c :: acc)

/-- Modelled from the spec (§4.1 step (c)): "the first balanced `\x7b...\x7d`
span found in the text".  This is NOT what the code's greedy regex does; it is
defined only to compare the spec's wording with the code. -/
def firstBalancedSpan (l : List Char) : Option (List Char) :=
  balanceLoop (l.dropWhile (fun c => c ≠ '\x7b')) 0 []

/-- Top-level keys of an object value (observation used to separate concrete
parse results). -/
def objKeys : Json → List (List Char)
  | .obj ms => ms.map Prod.fst
  | _ => []

/- ===================== Hallucination detector signal construction (detectors/hallucination.py) ===================== -/

/-- Parsed payload of the hallucination-detector response
(hallucination.py:67-93); fields read with `.get` and a default. -/
structure HalluResult where
  hallucination_detected : Option Bool
  confidence : Option ℚ
  severity : Option String
  summary : Option String
  findings : List Finding
deriving DecidableEq

/-- The `FailureSignal` built by `hallucination_detector` from a successfully
parsed response (hallucination.py:67-93).  The confidence is stored exactly as
returned (default 0.0), with no clamping. -/
def hallucination_signal_of (r : HalluResult) : FailureSignal :=
  { failure_type := "hallucination"
    detected := r.hallucination_detected.getD false
    confidence := r.confidence.getD 0
    severity := r.severity.getD ("medium")
    evidence := r.findings.filterMap (fun f =>
      if f.is_hallucinated.getD false then
        match f.reason with
        | some s => if s.isEmpty then none else some s
        | none => none
      else none)
    related_claim_ids := r.findings.filterMap (fun f =>
      if f.is_hallucinated.getD false then
        match f.claim_id with
        | some s => if s.isEmpty then none else some s
        | none => none
      else none)
    explanation := r.summary.getD ("No hallucination issues detected.")
    findings := r.findings }

/- ===================== Concrete instances used by the claims ===================== -/

/-- The spec's §8 scenario signal: hallucination, confidence 0.85, high. -/
def hallu_scenario : FailureSignal :=
  { failure_type := "hallucination", detected := true, confidence := 85/100,
    severity := "high", evidence := [], related_claim_ids := [], explanation := "",
    findings := [] }

/-- Three retained signals whose raw summed contribution in domain `medical`
is exactly 1.3 (0.7 + 0.4 + 0.2). -/
def cap_scenario : List FailureSignal :=
  [{ failure_type := "hallucination", detected := true, confidence := 1,
     severity := "critical", evidence := [], related_claim_ids := [], explanation := "",
     findings := [] },
   { failure_type := "missing_assumptions", detected := true, confidence := 1,
     severity := "critical", evidence := [], related_claim_ids := [], explanation := "",
     findings := [] },
   { failure_type := "overconfidence", detected := true, confidence := 1,
     severity := "critical", evidence := [], related_claim_ids := [], explanation := "",
     findings := [] }]

/-- A signal whose raw contribution 0.2496 rounds up to the 0.25 category
boundary: the category is chosen before rounding. -/
def boundary_signal : FailureSignal :=
  { failure_type := "hallucination", detected := true, confidence := 624/875,
    severity := "critical", evidence := [], related_claim_ids := [], explanation := "",
    findings := [] }

/-- A backend response reporting confidence 1.5 (out of range). -/
def overconfident_result : HalluResult :=
  { hallucination_detected := some true, confidence := some (3/2),
    severity := some ("high"), summary := none, findings := [] }

/-- A signal carrying a negative backend-reported confidence. -/
def negative_signal : FailureSignal :=
  { failure_type := "hallucination", detected := true, confidence := -1,
    severity := "critical", evidence := [], related_claim_ids := [], explanation := "",
    findings := [] }

/-- A detected signal above the default threshold. -/
def retained_signal : FailureSignal :=
  { failure_type := "hallucination", detected := true, confidence := 8/10,
    severity := "high", evidence := [], related_claim_ids := [], explanation := "",
    findings := [] }

/-- A response holding two complete JSON objects: the greedy span (first `\x7b`
to last `\x7d`) is unparsable although the first balanced span parses. -/
def two_object_response : String := "\x7b\"a\": 1\x7d and \x7b\"b\": 2\x7d"

/-- A high-severity hallucination failure for the recommendation scenario. -/
def rec_failure : FailureSignal :=
  { failure_type := "hallucination", detected := true, confidence := 9/10,
    severity := "high", evidence := [], related_claim_ids := [], explanation := "",
    findings := [] }

/-- A domain-recommendation call returning one priority-1 record. -/
def rec_domllm : DomainLlm :=
  .parsed [{ recommendation_id := none, priority := some 1, failure_type := none,
             title := some ("T"), description := some ("D"),
             implementation_hint := none }]

/-- The priority comparison used by the final sort is total. -/
instance : IsTotal RecommendationData (fun x y => x.priority ≤ y.priority) :=
  ⟨fun a b => Nat.le_total a.priority b.priority⟩

/-- The priority comparison used by the final sort is transitive. -/
instance : IsTrans RecommendationData (fun x y => x.priority ≤ y.priority) :=
  ⟨fun _ _ _ => Nat.le_trans⟩

/- ===================== Supporting lemmas ===================== -/

/-- The accumulated total of the scoring loop is the sum of contributions. -/
lemma riskLoop_fst (d : String) (fs : List FailureSignal) :
    (riskLoop d fs).1 = (fs.map (contribution d)).sum := by
  suffices h : ∀ (l : List FailureSignal) (t : ℚ) (facs : List Factor),
      (l.foldl (fun acc f => (acc.1 + contribution d f, acc.2 ++ [mkFactor d f])) (t, facs)).1
        = t + (l.map (contribution d)).sum by
    simpa [riskLoop] using h fs 0 []
  intro l
  induction l with
  | nil => intro t facs; simp
  | cons f rest ih =>
    intro t facs
    simp only [List.foldl_cons, List.map_cons, List.sum_cons, ih]
    ring

lemma failureWeight_nonneg (t : String) : 0 ≤ failureWeight t := by
  unfold failureWeight; split_ifs <;> norm_num

lemma severityMultiplier_nonneg (s : String) : 0 ≤ severityMultiplier s := by
  unfold severityMultiplier; split_ifs <;> norm_num

lemma domainMultiplier_nonneg (d : String) : 0 ≤ domainMultiplier d := by
  unfold domainMultiplier; split_ifs <;> norm_num

lemma contribution_nonneg (d : String) (f : FailureSignal) (h : 0 ≤ f.confidence) :
    0 ≤ contribution d f :=
  mul_nonneg (mul_nonneg (mul_nonneg h (failureWeight_nonneg _))
    (severityMultiplier_nonneg _)) (domainMultiplier_nonneg _)

/-- `Rat.floor` is the `Int.floor` of ℚ. -/
lemma ratFloor_eq_intFloor (q : ℚ) : Rat.floor q = ⌊q⌋ := rfl

lemma roundHalfEven_nonneg (q : ℚ) (h : 0 ≤ q) : 0 ≤ roundHalfEven q := by
  have h0 : (0 : ℤ) ≤ ⌊q⌋ := Int.floor_nonneg.mpr h
  simp only [roundHalfEven, ratFloor_eq_intFloor]
  split_ifs <;> omega

lemma roundHalfEven_le (q : ℚ) (B : ℤ) (h : q ≤ B) : roundHalfEven q ≤ B := by
  have h1 : ⌊q⌋ ≤ B := by
    have := Int.floor_le_floor h
    simpa using this
  have hfl : (⌊q⌋ : ℚ) ≤ q := Int.floor_le q
  simp only [roundHalfEven, ratFloor_eq_intFloor]
  split_ifs with h2 h3 h4
  · exact h1
  · rcases lt_or_eq_of_le h1 with h5 | h5
    · omega
    · exfalso
      rw [h5] at h3 hfl
      push_neg at h2
      have : (B : ℚ) + 1/2 ≤ q := by linarith
      linarith
  · exact h1
  · rcases lt_or_eq_of_le h1 with h5 | h5
    · omega
    · exfalso
      rw [h5] at h2
      push_neg at h2
      have : (B : ℚ) + 1/2 ≤ q := by linarith
      linarith

lemma pyRound_nonneg (d : ℕ) (q : ℚ) (h : 0 ≤ q) : 0 ≤ pyRound d q := by
  have : (0 : ℤ) ≤ roundHalfEven (q * 10 ^ d) :=
    roundHalfEven_nonneg _ (by positivity)
  unfold pyRound
  apply div_nonneg
  · exact_mod_cast this
  · positivity

lemma pyRound_le_one (d : ℕ) (q : ℚ) (h : q ≤ 1) : pyRound d q ≤ 1 := by
  have hb : q * 10 ^ d ≤ ((10 ^ d : ℤ) : ℚ) := by
    push_cast
    nlinarith [pow_pos (show (0:ℚ) < 10 by norm_num) d]
  have hr := roundHalfEven_le (q * 10 ^ d) (10 ^ d) hb
  unfold pyRound
  rw [div_le_one (by positivity)]
  exact_mod_cast hr

/- ===================== Claim theorems ===================== -/

/-- C1: the risk scorer computes each retained failure's contribution as
confidence × type_weight × severity_multiplier × domain_multiplier with
severity multipliers low 0.25 / medium 0.5 / high 0.75 / critical 1.0, and the
returned risk score is the sum of contributions capped at 1.0 (rounded to 3
places on return); the medical hallucination scenario scores 0.446, and a raw
sum of 1.3 caps to 1.0. -/
theorem c1_risk_score_formula :
    (∀ (fs : List FailureSignal) (domain : String),
        (risk_scoring_node fs domain).risk_score
          = pyRound 3 (min ((fs.map (contribution domain)).sum) 1))
    ∧ (severityMultiplier ("low") = 1/4 ∧ severityMultiplier ("medium") = 1/2
        ∧ severityMultiplier ("high") = 3/4 ∧ severityMultiplier ("critical") = 1)
    ∧ (domainMultiplier ("medical") = 2 ∧ failureWeight ("hallucination") = 35/100)
    ∧ contribution ("medical") hallu_scenario = 44625/100000
    ∧ (risk_scoring_node [hallu_scenario] ("medical")).risk_score = 446/1000
    ∧ (∀ (fs : List FailureSignal) (domain : String),
        (fs.map (contribution domain)).sum = 13/10 →
        (risk_scoring_node fs domain).risk_score = 1) := by
  refine ⟨?_,
    ⟨by simp [severityMultiplier], by simp [severityMultiplier],
     by simp [severityMultiplier], by simp [severityMultiplier]⟩,
    ⟨by simp [domainMultiplier], by simp [failureWeight]⟩,
    by with_unfolding_all rfl,
    by with_unfolding_all rfl, ?_⟩
  · intro fs domain
    show pyRound 3 (min (riskLoop domain fs).1 1) = _
    rw [riskLoop_fst]
  · intro fs domain h
    have e1 : (risk_scoring_node fs domain).risk_score
        = pyRound 3 (min ((fs.map (contribution domain)).sum) 1) := by
      show pyRound 3 (min (riskLoop domain fs).1 1) = _
      rw [riskLoop_fst]
    rw [e1, h, min_eq_right (by norm_num : (1:ℚ) ≤ 13/10)]
    with_unfolding_all rfl

/-- Witness for C1: three critical signals in domain medical sum to exactly
1.3 and score exactly 1.0. -/
theorem c1_risk_score_formula_witness :
    (cap_scenario.map (contribution ("medical"))).sum = 13/10
    ∧ (risk_scoring_node cap_scenario ("medical")).risk_score = 1 :=
  ⟨by with_unfolding_all rfl,
   c1_risk_score_formula.2.2.2.2.2 cap_scenario ("medical") (by with_unfolding_all rfl)⟩

/-- C4: the risk category is computed from the unrounded capped score with the
fixed thresholds <0.25 low, <0.50 medium, <0.75 high, else critical, it is
non-decreasing in the score, and the returned risk score is rounded to three
places after the category is chosen (the boundary instance scores 0.2496:
category low, returned score 0.25). -/
theorem c4_risk_category_thresholds :
    (∀ (fs : List FailureSignal) (domain : String),
        (risk_scoring_node fs domain).risk_level
            = riskLevelOf (min ((fs.map (contribution domain)).sum) 1)
          ∧ (risk_scoring_node fs domain).risk_score
            = pyRound 3 (min ((fs.map (contribution domain)).sum) 1))
    ∧ (∀ q : ℚ,
        (q < 1/4 → riskLevelOf q = "low")
        ∧ (1/4 ≤ q → q < 1/2 → riskLevelOf q = "medium")
        ∧ (1/2 ≤ q → q < 3/4 → riskLevelOf q = "high")
        ∧ (3/4 ≤ q → riskLevelOf q = "critical"))
    ∧ (∀ a b : ℚ, a ≤ b → levelRank (riskLevelOf a) ≤ levelRank (riskLevelOf b))
    ∧ ((risk_scoring_node [boundary_signal] ("general")).risk_level = "low"
        ∧ (risk_scoring_node [boundary_signal] ("general")).risk_score = 1/4) := by
  refine ⟨?_, ?_, ?_, by with_unfolding_all rfl, by with_unfolding_all rfl⟩
  · intro fs domain
    constructor
    · show riskLevelOf (min (riskLoop domain fs).1 1) = _
      rw [riskLoop_fst]
    · show pyRound 3 (min (riskLoop domain fs).1 1) = _
      rw [riskLoop_fst]
  · intro q
    refine ⟨fun h1 => ?_, fun h1 h2 => ?_, fun h1 h2 => ?_, fun h1 => ?_⟩ <;>
      unfold riskLevelOf <;> split_ifs <;> first | rfl | linarith
  · intro a b hab
    unfold riskLevelOf
    split_ifs <;> simp [levelRank] <;> linarith

/-- Witness for C4: a score of 0.3 is categorised medium and ranks are
monotone at 0 ≤ 0.3. -/
theorem c4_risk_category_thresholds_witness :
    riskLevelOf (3/10) = "medium"
    ∧ levelRank (riskLevelOf 0) ≤ levelRank (riskLevelOf (3/10)) :=
  ⟨(c4_risk_category_thresholds.2.1 (3/10)).2.1 (by norm_num) (by norm_num),
   c4_risk_category_thresholds.2.2.1 0 (3/10) (by norm_num)⟩

/-- C2: with any configured threshold (default 0.5), a signal is retained in
`detected_failures` iff it is one of the collected raw signals, its `detected`
flag is true, and its confidence is ≥ the threshold; `detected_failures` is a
subset of the raw-signal list, and `failure_detected` holds iff the retained
list is non-empty. -/
theorem c2_aggregation_retention :
    failure_confidence_threshold = 1/2
    ∧ ∀ (th : ℚ) (h l a o s u : Option FailureSignal),
        (∀ x, x ∈ (aggregation_node th h l a o s u).detected_failures
            ↔ (x ∈ (aggregation_node th h l a o s u).failure_signals
                ∧ x.detected = true ∧ th ≤ x.confidence))
        ∧ (aggregation_node th h l a o s u).detected_failures
            ⊆ (aggregation_node th h l a o s u).failure_signals
        ∧ ((aggregation_node th h l a o s u).failure_detected = true
            ↔ (aggregation_node th h l a o s u).detected_failures ≠ []) := by
  refine ⟨rfl, ?_⟩
  intro th h l a o s u
  simp only [aggregation_node]
  have hperm := List.perm_insertionSort
    (fun x y : FailureSignal => y.confidence ≤ x.confidence)
    ((collectSignals h l a o s u).filter (retainPred th))
  refine ⟨?_, ?_, ?_⟩
  · intro x
    rw [hperm.mem_iff, List.mem_filter]
    simp [retainPred]
  · intro x hx
    exact (List.mem_filter.mp (hperm.mem_iff.mp hx)).1
  · rw [decide_eq_true_eq, ← hperm.length_eq, List.length_pos]

/-- Witness for C2: a detected signal with confidence 0.8 is retained at the
default threshold. -/
theorem c2_aggregation_retention_witness :
    retained_signal ∈
      (aggregation_node (1/2) (some retained_signal) none none none none none).detected_failures :=
  ((c2_aggregation_retention.2 (1/2) (some retained_signal) none none none none none).1
      retained_signal).mpr
    ⟨by with_unfolding_all decide, rfl, by with_unfolding_all decide⟩

/-- C5 evaluates the retry path: because `generate`'s body converts
`httpx.TimeoutException`/`httpx.ConnectError` into `OllamaTimeoutError`/
`OllamaConnectionError` before tenacity can observe them, the retry predicate
`retry_if_exception_type((httpx.TimeoutException, httpx.ConnectError))` never
matches, so every call makes exactly one attempt; a permanently
connection-failing backend propagates `OllamaConnectionError` after the first
attempt instead of being retried 3 times. -/
theorem c5_retry_never_fires :
    (∀ backend : ℕ → BackendOutcome, (generate backend).2 = 1)
    ∧ generate (fun _ => .rawConnect) = (.error .ollamaConnection, 1) := by
  constructor
  · intro backend
    cases hb : backend 1 <;>
      simp [generate, tenacityLoop, generate_body, hb, tenacity_should_retry]
  · rfl

/-- Counterexample for C3: the detector stores the backend value verbatim — a
reported confidence of 1.5 is stored as 1.5 (not clamped to [0,1]), and a
negative stored confidence drives the returned risk score below 0. -/
theorem c3_counterexample :
    (hallucination_signal_of overconfident_result).confidence = 3/2
    ∧ ¬ (hallucination_signal_of overconfident_result).confidence ≤ 1
    ∧ (risk_scoring_node [negative_signal] ("general")).risk_score < 0 := by
  refine ⟨rfl, ?_, ?_⟩
  · show ¬ (3/2 : ℚ) ≤ 1
    norm_num
  · have e : (risk_scoring_node [negative_signal] ("general")).risk_score = -7/20 := by
      with_unfolding_all rfl
    rw [e]
    norm_num

/-- C3 (amended): the confidence stored in a FailureSignal is the
backend-reported value with default 0.0 and no clamping; the risk score is
capped above at 1.0 only, and lies in [0,1] whenever every retained failure's
confidence is nonnegative. -/
theorem c3_confidence_passthrough_score_capped :
    (∀ r : HalluResult, (hallucination_signal_of r).confidence = r.confidence.getD 0)
    ∧ (∀ (fs : List FailureSignal) (domain : String),
        (risk_scoring_node fs domain).risk_score ≤ 1)
    ∧ (∀ (fs : List FailureSignal) (domain : String),
        (∀ f ∈ fs, 0 ≤ f.confidence) →
        0 ≤ (risk_scoring_node fs domain).risk_score) := by
  have escore : ∀ (fs : List FailureSignal) (domain : String),
      (risk_scoring_node fs domain).risk_score
        = pyRound 3 (min ((fs.map (contribution domain)).sum) 1) := by
    intro fs domain
    show pyRound 3 (min (riskLoop domain fs).1 1) = _
    rw [riskLoop_fst]
  refine ⟨fun _ => rfl, ?_, ?_⟩
  · intro fs domain
    rw [escore]
    exact pyRound_le_one _ _ (min_le_right _ _)
  · intro fs domain hpos
    rw [escore]
    apply pyRound_nonneg
    apply le_min _ (by norm_num)
    apply List.sum_nonneg
    intro x hx
    obtain ⟨f, hf, rfl⟩ := List.mem_map.mp hx
    exact contribution_nonneg _ _ (hpos f hf)

/-- Witness for C3 (amended): the nonnegative-confidence hypothesis holds for
the medical cap scenario and its score lies in [0,1]. -/
theorem c3_confidence_passthrough_score_capped_witness :
    0 ≤ (risk_scoring_node cap_scenario ("medical")).risk_score
    ∧ (risk_scoring_node cap_scenario ("medical")).risk_score ≤ 1 :=
  ⟨c3_confidence_passthrough_score_capped.2.2 cap_scenario ("medical")
      (by intro f hf; fin_cases hf <;> norm_num [cap_scenario]),
   c3_confidence_passthrough_score_capped.2.1 cap_scenario ("medical")⟩

/-- Counterexample for C6: on a response holding two complete JSON objects,
the code's greedy `\x7b.*\x7d` span (first `\x7b` to last `\x7d`) fails to
parse and the call returns the parse-error sentinel, although the first
balanced `\x7b...\x7d` span claimed by the spec parses to the first object —
so step (c) is not "the first balanced span". -/
theorem c6_counterexample :
    generate_structured_parse two_object_response = sentinelObj two_object_response.data
    ∧ (firstBalancedSpan two_object_response.data).bind jsonLoadsL
        = some (.obj [(("a").data, .num 1)])
    ∧ generate_structured_parse two_object_response
        ≠ ((firstBalancedSpan two_object_response.data).bind jsonLoadsL).getD
            (sentinelObj two_object_response.data) := by
  refine ⟨by with_unfolding_all rfl, by with_unfolding_all rfl, ?_⟩
  intro hEq
  have h2 := congrArg objKeys hEq
  have e1 : objKeys (generate_structured_parse two_object_response)
      = [("_raw_response").data, ("_parse_error").data] := by with_unfolding_all rfl
  have e2 : objKeys (((firstBalancedSpan two_object_response.data).bind jsonLoadsL).getD
      (sentinelObj two_object_response.data)) = [("a").data] := by with_unfolding_all rfl
  rw [e1, e2] at h2
  exact absurd h2 (by decide)

/-- C6 (amended): `generate_structured` applies the layered parse in order —
(a) direct JSON parse of the whole text; (b) on failure, parse of the fenced
code block's contents; (c) on failure, parse of the greedy span from the first
`\x7b` to the last `\x7d` (not the first balanced span); (d) if all fail, a
parse-error-flagged dict preserving the raw text under the sentinel key, never
an exception. -/
theorem c6_layered_parse :
    ∀ response : String,
      (∀ v, jsonLoadsL response.data = some v → generate_structured_parse response = v)
      ∧ (jsonLoadsL response.data = none →
          ∀ inner v, fenceExtract response.data = some inner → jsonLoadsL inner = some v →
            generate_structured_parse response = v)
      ∧ (jsonLoadsL response.data = none →
          (fenceExtract response.data).bind jsonLoadsL = none →
          ∀ sp v, greedySpan response.data = some sp → jsonLoadsL sp = some v →
            generate_structured_parse response = v)
      ∧ (jsonLoadsL response.data = none →
          (fenceExtract response.data).bind jsonLoadsL = none →
          (greedySpan response.data).bind jsonLoadsL = none →
          generate_structured_parse response = sentinelObj response.data) := by
  intro response
  refine ⟨?_, ?_, ?_, ?_⟩
  · intro v hv
    simp [generate_structured_parse, hv]
  · intro h0 inner v hf hv
    simp [generate_structured_parse, h0, hf, hv]
  · intro h0 hfb sp v hg hv
    simp [generate_structured_parse, h0, hfb, hg, hv]
  · intro h0 hfb hgb
    simp [generate_structured_parse, h0, hfb, hgb]

/-- Witness for C6 (amended): a plainly unparsable response falls through all
three layers and yields the sentinel dict. -/
theorem c6_layered_parse_witness :
    generate_structured_parse ("not json") = sentinelObj (("not json").data) :=
  (c6_layered_parse ("not json")).2.2.2 (by with_unfolding_all rfl)
    (by with_unfolding_all rfl) (by with_unfolding_all rfl)

/-- Counterexample for C7: the fallback skips fragments of 10 characters or
fewer, so an answer that does contain sentence-ending punctuation can still
produce zero claims. -/
theorem c7_counterexample :
    fallback_claim_extraction ("Yes.") = []
    ∧ ("Yes.").data.any isSentPunct = true := by
  exact ⟨rfl, rfl⟩

/-- C7 (amended): on model failure the Claim Decomposer falls back to the
sentence split of the answer (split on `.`, `!`, `?` followed by whitespace),
producing at most 20 claims, all of type "factual" with empty assumption
lists, and zero reasoning steps / overall assumptions; it returns at least one
claim whenever some split fragment has stripped length greater than 10
(shorter fragments are skipped). -/
theorem c7_fallback_properties :
    (∀ answer : String, (fallback_claim_extraction answer).length ≤ 20)
    ∧ (∀ answer : String, ∀ c ∈ fallback_claim_extraction answer,
        c.claim_type = "factual" ∧ c.implicit_assumptions = [])
    ∧ (∀ answer : String,
        (decomposition_on_parse_error answer).claims = fallback_claim_extraction answer
        ∧ (decomposition_on_parse_error answer).assumptions = []
        ∧ (decomposition_on_parse_error answer).reasoning_steps = [])
    ∧ (∀ answer : String,
        (∃ sfrag ∈ sentSplit (stripL answer.data), 10 < (stripL sfrag).length) →
        fallback_claim_extraction answer ≠ []) := by
  have hmem : ∀ (l : List (List Char)) (i : ℕ) (c : ClaimData), c ∈ extractLoop i l →
      c.claim_type = "factual" ∧ c.implicit_assumptions = [] := by
    intro l
    induction l with
    | nil => intro i c hc; simp [extractLoop] at hc
    | cons sfrag rest ih =>
      intro i c hc
      simp only [extractLoop] at hc
      split_ifs at hc with hlen
      · rcases List.mem_cons.mp hc with h | h
        · subst h; exact ⟨rfl, rfl⟩
        · exact ih _ _ h
      · exact ih _ _ hc
  have hne : ∀ (l : List (List Char)) (i : ℕ),
      (∃ sfrag ∈ l, 10 < (stripL sfrag).length) → extractLoop i l ≠ [] := by
    intro l
    induction l with
    | nil => intro i h; rcases h with ⟨s, hs, _⟩; simp at hs
    | cons sfrag rest ih =>
      intro i h
      simp only [extractLoop]
      split_ifs with hlen
      · simp
      · rcases h with ⟨s, hs, hslen⟩
        rcases List.mem_cons.mp hs with h1 | h1
        · subst h1; exact absurd hslen hlen
        · exact ih _ ⟨s, h1, hslen⟩
  refine ⟨?_, ?_, fun answer => ⟨rfl, rfl, rfl⟩, ?_⟩
  · intro answer
    exact List.length_take_le _ _
  · intro answer c hc
    exact hmem _ _ _ (List.take_subset _ _ hc)
  · intro answer hex
    have h1 := hne _ 0 hex
    intro h2
    apply h1
    rcases List.take_eq_nil_iff.mp h2 with h3 | h3
    · exact absurd h3 (by norm_num)
    · exact h3

/-- Counting helper: the ids-attaching map contributes `es.length` entries of
its own failure type and none of any other type. -/
lemma attachIds_countP (t tp : String) :
    ∀ (ctr : ℕ) (es : List RecEntry),
      (attachIds ctr tp es).countP (fun r => r.failure_type == t)
        = if tp == t then es.length else 0 := by
  intro ctr es
  induction es generalizing ctr with
  | nil => simp [attachIds]
  | cons e rest ih =>
    simp only [attachIds, List.countP_cons]
    rw [ih]
    by_cases h : tp = t
    · simp [h]
    · simp [h]

/-- A failure type already in `seen` contributes no further static entries. -/
lemma buildStatic_countP_zero (t : String) :
    ∀ (fs : List FailureSignal) (seen : List String) (ctr : ℕ), t ∈ seen →
      (buildStatic fs seen ctr).countP (fun r => r.failure_type == t) = 0 := by
  intro fs
  induction fs with
  | nil => intro seen ctr _; simp [buildStatic]
  | cons f rest ih =>
    intro seen ctr hseen
    simp only [buildStatic]
    split_ifs with hf
    · exact ih _ _ hseen
    · rw [List.countP_append, attachIds_countP]
      have hne : f.failure_type ≠ t := fun he => hf (he ▸ hseen)
      rw [if_neg (by simpa using hne)]
      simpa using ih _ _ (List.mem_cons_of_mem _ hseen)

/-- Every failure type contributes at most 2 static entries. -/
lemma buildStatic_countP_le (t : String) :
    ∀ (fs : List FailureSignal) (seen : List String) (ctr : ℕ),
      (buildStatic fs seen ctr).countP (fun r => r.failure_type == t) ≤ 2 := by
  intro fs
  induction fs with
  | nil => intro seen ctr; simp [buildStatic]
  | cons f rest ih =>
    intro seen ctr
    simp only [buildStatic]
    split_ifs with hf
    · exact ih _ _
    · rw [List.countP_append, attachIds_countP]
      by_cases he : f.failure_type = t
      · rw [if_pos (by simpa using he),
          buildStatic_countP_zero t rest _ _ (he ▸ List.mem_cons_self _ _)]
        have hl : ((recommendations_db f.failure_type).take 2).length ≤ 2 :=
          List.length_take_le _ _
        omega
      · rw [if_neg (by simpa using he)]
        simpa using ih _ _

/-- Counterexample for C9: with a non-general domain and a domain-specific
entry of priority 1, the returned list has priorities [1, 2, 1] — the
domain-specific entries are appended AFTER the priority sort, so the final
list is not sorted by priority ascending. -/
theorem c9_counterexample :
    ((recommendation_node [rec_failure] ("medical") rec_domllm).map (fun r => r.priority))
        = [1, 2, 1]
    ∧ ¬ List.Pairwise (fun x y : ℕ => x ≤ y)
        ((recommendation_node [rec_failure] ("medical") rec_domllm).map (fun r => r.priority)) := by
  have h1 : ((recommendation_node [rec_failure] ("medical") rec_domllm).map (fun r => r.priority))
      = [1, 2, 1] := by with_unfolding_all rfl
  exact ⟨h1, by rw [h1]; decide⟩

/-- C9 (amended): the Recommendation Generator deduplicates failure types in
severity-rank order, takes at most 2 static entries per type, sorts the STATIC
portion by priority ascending BEFORE appending up to 3 domain-specific entries
(domain ≠ "general" only; failures of that step swallowed), and caps the final
list at 10; the whole list is priority-sorted when no domain entries are
added. -/
theorem c9_recommendation_order :
    (∀ (detected : List FailureSignal) (domain : String) (llm : DomainLlm),
        (recommendation_node detected domain llm).length ≤ 10)
    ∧ (∀ (detected : List FailureSignal) (llm : DomainLlm),
        List.Pairwise (fun x y => x.priority ≤ y.priority)
          (recommendation_node detected ("general") llm))
    ∧ (∀ detected : List FailureSignal,
        List.Pairwise (fun x y => x.priority ≤ y.priority)
          (sortByPriority (buildStatic (sortBySeverity detected) [] 1)))
    ∧ (∀ (detected : List FailureSignal) (t : String),
        (buildStatic (sortBySeverity detected) [] 1).countP
          (fun r => r.failure_type == t) ≤ 2)
    ∧ (∀ llm : DomainLlm, (domainRecsOf llm).length ≤ 3)
    ∧ domainRecsOf .exc = []
    ∧ (∀ (domain : String) (llm : DomainLlm), recommendation_node [] domain llm = []) := by
  have hsorted : ∀ l : List RecommendationData,
      List.Pairwise (fun x y => x.priority ≤ y.priority) (sortByPriority l) :=
    fun l => List.sorted_insertionSort _ l
  refine ⟨?_, ?_, fun detected => hsorted _, fun detected t => buildStatic_countP_le t _ _ _,
    ?_, rfl, fun _ _ => rfl⟩
  · intro detected domain llm
    unfold recommendation_node
    split_ifs <;> simp [List.length_take_le]
  · intro detected llm
    unfold recommendation_node
    split_ifs with h hg
    · exact List.Pairwise.nil
    · exact absurd rfl hg
    · exact (hsorted _).sublist (List.take_sublist _ _)
  · intro llm
    cases llm <;> simp [domainRecsOf, List.length_take_le]

/-- C10: the refusal check precedes the error check — an answer (under a
non-empty question) whose lowercased text matches both a refusal pattern and
an error pattern and is shorter than 200 characters passes precheck classified
"refusal"; the error rejection can only fire when no short-refusal match
occurred. -/
theorem c10_refusal_precedence :
    (∀ (question answer : String) (llm : PrecheckLlm),
        stripL question.data ≠ [] →
        refusal_patterns.any (containsPat (lowerL (stripL answer.data))) = true →
        error_patterns.any (containsPat (lowerL (stripL answer.data))) = true →
        (stripL answer.data).length < 200 →
        precheck_node question answer llm
          = { precheck_passed := true, precheck_failure_reason := none,
              answer_type := "refusal" })
    ∧ (∀ (question answer : String) (llm : PrecheckLlm),
        (precheck_node question answer llm).precheck_failure_reason
            = some ("Answer appears to be an error message") →
        ¬ (refusal_patterns.any (containsPat (lowerL (stripL answer.data))) = true
            ∧ (stripL answer.data).length < 200)) := by
  constructor
  · intro question answer llm hq hr _ hl
    have ha : (stripL answer.data).isEmpty = false := by
      cases hsa : stripL answer.data with
      | nil => rw [hsa] at hr; exact absurd hr (by decide)
      | cons c t => rfl
    have hq' : (stripL question.data).isEmpty = false := by
      cases hsq : stripL question.data with
      | nil => exact absurd hsq hq
      | cons c t => rfl
    simp [precheck_node, hq', ha, hr, hl]
  · intro question answer llm h
    simp only [precheck_node] at h
    split_ifs at h with h1 h2 h3 h4
    all_goals
      first
        | (simp at h; done)
        | (rintro ⟨hra, hrl⟩
           apply h3
           rw [hra]
           simpa using hrl)

/-- Witness for C10: an answer matching both "i cannot" and "error:" under 200
characters passes as a refusal. -/
theorem c10_refusal_precedence_witness :
    precheck_node ("Q?") ("i cannot, error: x") .exc
      = { precheck_passed := true, precheck_failure_reason := none,
          answer_type := "refusal" } :=
  c10_refusal_precedence.1 ("Q?") ("i cannot, error: x") .exc
    (by decide) (by decide) (by decide) (by decide)

/-- Counterexample for C8: when the question is ALSO empty, precheck rejects
with reason "Question is empty", not "Answer is empty", and the early-exit
explanation does not contain "Answer is empty" — although the request's answer
is empty after stripping. -/
theorem c8_counterexample :
    stripL ("").data = []
    ∧ (precheck_node ("") ("") .exc).precheck_failure_reason = some ("Question is empty")
    ∧ (precheck_node ("") ("") .exc).precheck_failure_reason ≠ some ("Answer is empty")
    ∧ occursInL (("Answer is empty").data)
        (early_exit_node (precheck_node ("") ("") .exc).precheck_failure_reason).explanation.data
        = false := by
  refine ⟨rfl, rfl, by decide, by decide⟩

/-- C8 (amended): for every request with a non-empty question and an
empty-after-stripping answer, precheck rejects with reason "Answer is empty",
the orchestrator's conditional edge routes to `early_exit` (skipping all
downstream stages), and the early-exit result has `failure_detected = false`,
`risk_score = 0.0`, category "low", empty failure lists, and an explanation
containing the literal "Answer is empty"; `early_exit_node` also sets
`recommendations = []` (orchestrator.py:64). -/
theorem c8_empty_answer_early_exit :
    ∀ (question answer : String) (llm : PrecheckLlm),
      stripL question.data ≠ [] →
      stripL answer.data = [] →
      (precheck_node question answer llm).precheck_passed = false
      ∧ (precheck_node question answer llm).precheck_failure_reason = some ("Answer is empty")
      ∧ should_continue_after_precheck (precheck_node question answer llm) = "early_exit"
      ∧ early_exit_node (precheck_node question answer llm).precheck_failure_reason
          = { failure_detected := false, failure_types := [], detected_failures := [],
              risk_score := 0, risk_level := "low",
              explanation := "Analysis skipped: Answer is empty",
              recommendations := [] }
      ∧ occursInL (("Answer is empty").data)
          (early_exit_node
            (precheck_node question answer llm).precheck_failure_reason).explanation.data
          = true := by
  intro question answer llm hq ha
  have hq' : (stripL question.data).isEmpty = false := by
    cases hqd : stripL question.data with
    | nil => exact absurd hqd hq
    | cons c t => rfl
  have ha' : (stripL answer.data).isEmpty = true := by rw [ha]; rfl
  have hpr : precheck_node question answer llm
      = { precheck_passed := false, precheck_failure_reason := some ("Answer is empty"),
          answer_type := "empty" } := by
    simp [precheck_node, hq', ha']
  refine ⟨by rw [hpr], by rw [hpr], by rw [hpr]; rfl, by rw [hpr]; rfl, by rw [hpr]; decide⟩

/-- Witness for C8 (amended): a non-empty question with a whitespace-only
answer is rejected with reason "Answer is empty". -/
theorem c8_empty_answer_early_exit_witness :
    (precheck_node ("Q") ("   ") .exc).precheck_failure_reason = some ("Answer is empty")
    ∧ should_continue_after_precheck (precheck_node ("Q") ("   ") .exc) = "early_exit" :=
  ⟨(c8_empty_answer_early_exit ("Q") ("   ") .exc (by decide) (by decide)).2.1,
   (c8_empty_answer_early_exit ("Q") ("   ") .exc (by decide) (by decide)).2.2.1⟩

/-- Witness for C7 (amended): an answer with one sentence longer than 10
characters yields at least one fallback claim. -/
theorem c7_fallback_properties_witness :
    fallback_claim_extraction ("The answer is four.") ≠ [] :=
  c7_fallback_properties.2.2.2 ("The answer is four.") (by decide)
